import Mathlib

/-!
Shallow embedding of the volume orchestration API (cinder/volume/api.py).

Records passed around as Python dicts are modelled as structures; database
ids are natural numbers (0 plays the role of a falsy id, mirroring Python
truthiness of ids); sizes are integers (the source's as_int tolerates
stringified integers, which are represented here by their value).  The
persistence collaborator (self.db) is an explicit Db value; quota, policy,
image-catalog and RPC collaborators are modelled by explicit outcome flags
and by an event trace listing every quota operation, persistence mutation
and RPC cast the orchestration code performs, in program order.
-/

namespace Cinder

/-- Volume record (the fields of the options dict built in create plus the
fields the orchestration code reads). -/
structure Volume where
  id : Nat
  user_id : Nat
  project_id : Nat
  size : Int
  status : String
  attach_status : String
  host : Option String
  snapshot_id : Option Nat
  source_volid : Option Nat
  volume_type_id : Option Nat
  availability_zone : Option String
  display_name : String
  display_description : String
  metadata : List (String × String)
deriving DecidableEq, Repr

/-- Snapshot record. -/
structure Snapshot where
  id : Nat
  volume_id : Nat
  user_id : Nat
  project_id : Nat
  status : String
  progress : String
  volume_size : Int
  display_name : String
  display_description : String
  metadata : List (String × String)
deriving DecidableEq, Repr

/-- A worker service row as returned by service_get_all_by_topic. -/
structure Service where
  host : String
  availability_zone : String
  disabled : Bool
deriving DecidableEq, Repr

/-- The persistence collaborator: the tables the orchestration code reads.
Rows soft-deleted in the real schema are simply absent here. -/
structure Db where
  volumes : List Volume
  snapshots : List Snapshot
deriving Repr

def Db.volume_get (db : Db) (id : Nat) : Option Volume :=
  db.volumes.find? (fun v => v.id == id)

def Db.snapshot_get (db : Db) (id : Nat) : Option Snapshot :=
  db.snapshots.find? (fun s => s.id == id)

/-- db.snapshot_get_all_for_volume: the non-deleted snapshot rows whose
volume_id references the volume. -/
def Db.snapshot_get_all_for_volume (db : Db) (volume_id : Nat) : List Snapshot :=
  db.snapshots.filter (fun s => s.volume_id == volume_id)

/-- db.volume_update restricted to the host field (the update issued by
_cast_create_volume; scheduled_at is not modelled). -/
def Db.volume_update_host (db : Db) (id : Nat) (host : Option String) : Db :=
  { db with volumes :=
      db.volumes.map fun v => if v.id == id then { v with host := host } else v }

/-- db.volume_update restricted to the status field (the update issued by
API.update for status transitions). -/
def Db.volume_update_status (db : Db) (id : Nat) (status : String) : Db :=
  { db with volumes :=
      db.volumes.map fun v => if v.id == id then { v with status := status } else v }

/-- Python truthiness of an optional integer (None and 0 are falsy). -/
def pyTruthyInt : Option Int → Bool
  | none => false
  | some n => n != 0

/-- Python truthiness of an optional id (None and a falsy id are falsy). -/
def pyTruthyNat : Option Nat → Bool
  | none => false
  | some n => n != 0

/-- Python truthiness of an optional string (None and "" are falsy). -/
def pyTruthyStr : Option String → Bool
  | none => false
  | some s => s ≠ ""

/-- Exception taxonomy raised by the orchestration code. -/
inductive Err where
  | invalidInput
  | invalidSnapshot
  | invalidSourceVolume
  | invalidVolume
  | invalidVolumeMetadata
  | invalidVolumeMetadataSize
  | volumeSizeExceedsAvailableQuota
  | volumeLimitExceeded
  | snapshotLimitExceeded
  | notFound
  | attributeError
  | persistenceError
deriving DecidableEq, Repr

/-- Dispatch target chosen by _cast_create_volume: a direct cast to a
specific backend host (with allow_reschedule=False), or a cast to the
generic scheduler topic carrying the filter-properties bag. -/
inductive Dispatch where
  | toHost (host : Option String) (allow_reschedule : Bool)
  | toScheduler (filter_properties : List (String × String))
deriving DecidableEq, Repr

/-- Observable effects of an orchestration call, in program order. -/
inductive Event where
  | quotaReserve (volumes : Int) (gigabytes : Int)
  | quotaReserveSnapshots (snapshots : Int) (gigabytes : Option Int)
  | quotaCommit
  | quotaRollback
  | volumeCreate (id : Nat)
  | volumeDestroy (id : Nat)
  | volumeUpdateStatus (id : Nat) (status : String)
  | snapshotCreate (id : Nat)
  | snapshotDestroy (id : Nat)
  | snapshotUpdateStatus (id : Nat) (status : String)
  | castDeleteVolume (id : Nat)
  | castCreateSnapshot (volume_id : Nat) (snapshot_id : Nat)
  | castDeleteSnapshot (snapshot_id : Nat) (host : Option String)
  | castCopyVolumeToImage (volume_id : Nat)
  | imageCreate
  | dispatch (d : Dispatch)
deriving DecidableEq, Repr

/-! ### Metadata validator (_check_metadata_properties, lines 630-646) -/

/-- _check_metadata_properties: iterates the metadata items; a blank key
raises InvalidVolumeMetadata, a key or value longer than 255 characters
raises InvalidVolumeMetadataSize. -/
def check_metadata_properties : List (String × String) → Except Err Unit
  | [] => .ok ()
  | (k, v) :: rest =>
    if k.length == 0 then .error Err.invalidVolumeMetadata
    else if k.length > 255 then .error Err.invalidVolumeMetadataSize
    else if v.length > 255 then .error Err.invalidVolumeMetadataSize
    else check_metadata_properties rest

/-! ### Host/zone aggregator (list_availability_zones, lines 283-301) -/

/-- Lookup of a key in an insertion-ordered dict (first matching entry). -/
def keyLookup : List (String × Bool) → String → Option Bool
  | [], _ => none
  | p :: m, k => if p.1 == k then some p.2 else keyLookup m k

/-- Python dict lookup with default: disabled_map.get(az_name, default). -/
def lookupDefault (m : List (String × Bool)) (k : String) (d : Bool) : Bool :=
  (keyLookup m k).getD d

/-- Python dict assignment disabled_map[k] = v: replaces the entry for k in
place, or appends a new entry preserving insertion order. -/
def dictSet : List (String × Bool) → String → Bool → List (String × Bool)
  | [], k, v => [(k, v)]
  | p :: rest, k, v => if p.1 == k then (k, v) :: rest else p :: dictSet rest k v

/-- The disabled_map fold of list_availability_zones:
tracked_disabled = disabled_map.get(az_name, True);
disabled_map[az_name] = tracked_disabled and disabled. -/
def disabledMapOf (az_data : List (String × Bool)) : List (String × Bool) :=
  az_data.foldl (fun m p => dictSet m p.1 (lookupDefault m p.1 true && p.2)) []

/-- list_availability_zones: folds the (availability_zone, disabled) pairs of
all services into disabled_map, then reports each zone with
available = not disabled. -/
def list_availability_zones (services : List Service) : List (String × Bool) :=
  let az_data := services.map (fun s => (s.availability_zone, s.disabled))
  (disabledMapOf az_data).map (fun p => (p.1, !p.2))

/-- The availability value list_availability_zones reports for a given zone
name, if the zone appears at all. -/
def reportedAvailable (services : List Service) (zone : String) : Option Bool :=
  keyLookup (list_availability_zones services) zone

/-! ### Placement router (_cast_create_volume, lines 225-281) -/

/-- The request spec built by create (lines 212-217; volume_properties and
volume_type are carried by the Volume record and are not read by the router). -/
structure RequestSpec where
  volume_id : Nat
  snapshot_id : Option Nat
  source_volid : Option Nat
  image_id : Option Nat
deriving DecidableEq, Repr

/-- _cast_create_volume: if snapshot_id is truthy and FLAGS.snapshot_same_host
is set, stamp the new volume's host with the snapshot's parent volume's host
and cast directly to that host (allow_reschedule=False); else if source_volid
is truthy, stamp with the source volume's host and cast directly; else cast
to the generic scheduler topic with the given filter_properties. Returns the
dispatch target and the database after the host stamp; a missing row is the
persistence collaborator's NotFound error. -/
def cast_create_volume (db : Db) (snapshot_same_host : Bool)
    (request_spec : RequestSpec) (filter_properties : List (String × String)) :
    Except Err (Dispatch × Db) :=
  let source_volid := request_spec.source_volid
  let volume_id := request_spec.volume_id
  let snapshot_id := request_spec.snapshot_id
  if pyTruthyNat snapshot_id && snapshot_same_host then
    match snapshot_id with
    | none => .error Err.notFound
    | some sid =>
      match db.snapshot_get sid with
      | none => .error Err.notFound
      | some snapshot_ref =>
        match db.volume_get snapshot_ref.volume_id with
        | none => .error Err.notFound
        | some source_volume_ref =>
          let db2 := db.volume_update_host volume_id source_volume_ref.host
          match db2.volume_get volume_id with
          | none => .error Err.notFound
          | some volume_ref => .ok (Dispatch.toHost volume_ref.host false, db2)
  else if pyTruthyNat source_volid then
    match source_volid with
    | none => .error Err.notFound
    | some svid =>
      match db.volume_get svid with
      | none => .error Err.notFound
      | some source_volume_ref =>
        let db2 := db.volume_update_host volume_id source_volume_ref.host
        match db2.volume_get volume_id with
        | none => .error Err.notFound
        | some volume_ref => .ok (Dispatch.toHost volume_ref.host false, db2)
  else
    .ok (Dispatch.toScheduler filter_properties, db)

/-! ### create (lines 89-223) -/

/-- Snapshot-origin handling (lines 99-108): the snapshot must be available;
a falsy requested size defaults to the snapshot's recorded volume_size. -/
def snapshotStep (snapshot : Option Snapshot) (size : Option Int) :
    Except Err (Option Int × Option Nat) :=
  match snapshot with
  | some snap =>
    if snap.status ≠ "available" then .error Err.invalidSnapshot
    else if !(pyTruthyInt size) then .ok (some snap.volume_size, some snap.id)
    else .ok (size, some snap.id)
  | none => .ok (size, none)

/-- Source-volume (clone) handling (lines 110-123): an error-state source is
rejected; a falsy requested size defaults to the source's size; an explicit
size strictly below the source's size is InvalidInput. -/
def sourceVolumeStep (source_volume : Option Volume) (size : Option Int) :
    Except Err (Option Int × Option Nat) :=
  match source_volume with
  | some sv =>
    if sv.status = "error" then .error Err.invalidSourceVolume
    else if !(pyTruthyInt size) then .ok (some sv.size, some sv.id)
    else
      match size with
      | some n =>
        if n < sv.size then .error Err.invalidInput else .ok (some n, some sv.id)
      | none => .ok (none, some sv.id)
  | none => .ok (size, none)

/-- Size validation (lines 125-137): sizes are modelled as integers, so
as_int is the identity; a missing size fails the isinstance check, and a
non-positive size is InvalidInput. -/
def sizeStep : Option Int → Except Err Int
  | none => .error Err.invalidInput
  | some n => if n ≤ 0 then .error Err.invalidInput else .ok n

/-- GB constant of the source: 1048576 * 1024. -/
def GB : Int := 1048576 * 1024

/-- Image size check (lines 139-146): only when an image id is given and the
request has neither source volume nor snapshot; the image's byte size is
rounded up to gigabytes and must not exceed the requested size. -/
def imageStep (image_size : Nat → Int) (image_id : Option Nat)
    (source_volume : Option Volume) (snapshot : Option Snapshot) (size : Int) :
    Except Err Unit :=
  match image_id with
  | some img =>
    if img ≠ 0 && source_volume.isNone && snapshot.isNone then
      let image_size_in_gb := (image_size img + GB - 1) / GB
      if image_size_in_gb > size then .error Err.invalidInput else .ok ()
    else .ok ()
  | none => .ok ()

/-- Volume type resolution (lines 180-186). Volume types are modelled by
their ids; get_default_volume_type returns the supplied default; reading
.get on a missing type object is the source's attribute error. -/
def volumeTypeStep (default_volume_type : Option Nat) (volume_type : Option Nat)
    (source_volume : Option Volume) : Except Err (Option Nat) :=
  let vt :=
    if volume_type.isNone && source_volume.isNone then default_volume_type
    else volume_type
  match vt, source_volume with
  | none, some sv => .ok sv.volume_type_id
  | none, none => .error Err.attributeError
  | some t, _ => .ok (some t)

/-- The caller-supplied arguments of create. -/
structure CreateArgs where
  size : Option Int
  name : String
  description : String
  snapshot : Option Snapshot
  image_id : Option Nat
  volume_type : Option Nat
  metadata : List (String × String)
  availability_zone : Option String
  source_volume : Option Volume

/-- The collaborators' behaviour during a create call: the request context,
the quota ledger outcome (reserveOk; on over-quota, overGigabytes selects
which resource is reported over), the outcome of the volume_create/commit
try-block (persistOk — a failure there covers both a volume_create error and
a commit error, and triggers the source's destroy+rollback cleanup), the
default volume type, the id volume_create assigns, the image catalog's size
answer, the snapshot_same_host flag and the database read by the router. -/
structure CreateEnv where
  project_id : Nat
  user_id : Nat
  reserveOk : Bool
  overGigabytes : Bool
  persistOk : Bool
  default_volume_type : Option Nat
  new_volume_id : Nat
  image_size : Nat → Int
  snapshot_same_host : Bool
  db : Db

/-- create (lines 89-223): validation, quota reservation, metadata check,
persistence with cleanup, and dispatch through _cast_create_volume with an
initially empty filter-properties bag.  The policy check is modelled as
always allowing.  Returns the created volume record (as returned to the
caller, before any host stamping) and the event trace. -/
def createVolume (env : CreateEnv) (args : CreateArgs) :
    Except Err Volume × List Event :=
  if args.snapshot.isSome && args.source_volume.isSome then
    (.error Err.invalidInput, [])
  else
    match snapshotStep args.snapshot args.size with
    | .error e => (.error e, [])
    | .ok (size1, snapshot_id) =>
      match sourceVolumeStep args.source_volume size1 with
      | .error e => (.error e, [])
      | .ok (size2, source_volid) =>
        match sizeStep size2 with
        | .error e => (.error e, [])
        | .ok size =>
          match imageStep env.image_size args.image_id args.source_volume
              args.snapshot size with
          | .error e => (.error e, [])
          | .ok _ =>
            if !env.reserveOk then
              (.error (if env.overGigabytes then Err.volumeSizeExceedsAvailableQuota
                       else Err.volumeLimitExceeded), [])
            else
              let r := Event.quotaReserve 1 size
              match volumeTypeStep env.default_volume_type args.volume_type
                  args.source_volume with
              | .error e => (.error e, [r])
              | .ok volume_type_id =>
                match check_metadata_properties args.metadata with
                | .error e => (.error e, [r])
                | .ok _ =>
                  let volume : Volume :=
                    { id := env.new_volume_id,
                      user_id := env.user_id,
                      project_id := env.project_id,
                      size := size,
                      status := "creating",
                      attach_status := "detached",
                      host := none,
                      snapshot_id := snapshot_id,
                      source_volid := source_volid,
                      volume_type_id := volume_type_id,
                      availability_zone := args.availability_zone,
                      display_name := args.name,
                      display_description := args.description,
                      metadata := args.metadata }
                  if !env.persistOk then
                    (.error Err.persistenceError,
                     [r, Event.volumeDestroy volume.id, Event.quotaRollback])
                  else
                    let request_spec : RequestSpec :=
                      { volume_id := volume.id,
                        snapshot_id := volume.snapshot_id,
                        source_volid := volume.source_volid,
                        image_id := args.image_id }
                    let es := [r, Event.volumeCreate volume.id, Event.quotaCommit]
                    match cast_create_volume env.db env.snapshot_same_host
                        request_spec [] with
                    | .error e => (.error e, es)
                    | .ok (d, _) => (.ok volume, es ++ [Event.dispatch d])

/-! ### delete (lines 303-341) -/

/-- The collaborators' behaviour during a delete call: the database holding
the snapshot rows, and whether the (negative-delta) quota reservation for
the no-host path succeeds. -/
structure DeleteEnv where
  db : Db
  reserveOk : Bool

/-- delete (lines 303-341): a volume with a falsy host is destroyed locally
(reserving negative deltas and committing them; a reserve failure only
logs); otherwise the status precondition is checked on the caller-supplied
record unless force, the snapshot check rejects a referenced volume, and on
success the status is set to deleting and a delete cast is issued. -/
def deleteVolume (env : DeleteEnv) (volume : Volume) (force : Bool) :
    Except Err Unit × List Event :=
  let volume_id := volume.id
  if !(pyTruthyStr volume.host) then
    if env.reserveOk then
      (.ok (), [Event.quotaReserve (-1) (-volume.size),
                Event.volumeDestroy volume_id, Event.quotaCommit])
    else
      (.ok (), [Event.volumeDestroy volume_id])
  else if force = false ∧ volume.status ∉ (["available", "error", "error_restoring"] : List String) then
    (.error Err.invalidVolume, [])
  else if (env.db.snapshot_get_all_for_volume volume_id).length ≠ 0 then
    (.error Err.invalidVolume, [])
  else
    (.ok (), [Event.volumeUpdateStatus volume_id "deleting",
              Event.castDeleteVolume volume_id])

/-! ### Status-precondition operations (lines 458-524, 605-613, 726-756) -/

/-- check_attach (lines 458-466): reads the caller-supplied record's status
and attach_status; the database is in scope but not consulted. -/
def check_attach (_db : Db) (volume : Volume) : Except Err Unit :=
  if volume.status ≠ "available" then .error Err.invalidVolume
  else if volume.attach_status = "attached" then .error Err.invalidVolume
  else .ok ()

/-- check_detach (lines 468-473): reads the caller-supplied record's status;
the database is in scope but not consulted. -/
def check_detach (_db : Db) (volume : Volume) : Except Err Unit :=
  if volume.status = "available" then .error Err.invalidVolume
  else .ok ()

/-- reserve_volume (lines 475-485): explicitly re-reads the volume row and
decides on the re-read status; on success persists status attaching, on
failure leaves the database unchanged. -/
def reserve_volume (db : Db) (volume : Volume) : Except Err Unit × Db :=
  match db.volume_get volume.id with
  | none => (.error Err.notFound, db)
  | some v =>
    if v.status = "available" then
      (.ok (), db.volume_update_status v.id "attaching")
    else (.error Err.invalidVolume, db)

/-- unreserve_volume (lines 487-490): if the caller-supplied record's status
is attaching, persist status available; otherwise do nothing. -/
def unreserve_volume (db : Db) (volume : Volume) : Db :=
  if volume.status = "attaching" then db.volume_update_status volume.id "available"
  else db

/-- begin_detaching (lines 492-494): unconditionally persist status detaching. -/
def begin_detaching (db : Db) (volume : Volume) : Db :=
  db.volume_update_status volume.id "detaching"

/-- roll_detaching (lines 496-499): if the caller-supplied record's status is
detaching, persist status in-use; otherwise do nothing. -/
def roll_detaching (db : Db) (volume : Volume) : Db :=
  if volume.status = "detaching" then db.volume_update_status volume.id "in-use"
  else db

/-- delete_snapshot (lines 605-613): the status precondition reads the
caller-supplied snapshot record; on success the snapshot status is set to
deleting and a delete cast goes to the parent volume's host (read from the
database after the update). -/
def delete_snapshot (db : Db) (snapshot : Snapshot) (force : Bool) :
    Except Err Unit × List Event :=
  if force = false ∧ snapshot.status ∉ (["available", "error"] : List String) then
    (.error Err.invalidVolume, [])
  else
    match db.volume_get snapshot.volume_id with
    | none => (.error Err.notFound,
               [Event.snapshotUpdateStatus snapshot.id "deleting"])
    | some volume =>
      (.ok (), [Event.snapshotUpdateStatus snapshot.id "deleting",
                Event.castDeleteSnapshot snapshot.id volume.host])

/-- _check_volume_availability (lines 726-733): reads the caller-supplied
record's status. -/
def check_volume_availability (volume : Volume) (force : Bool) : Except Err Unit :=
  if volume.status ∉ (["available", "in-use"] : List String) then .error Err.invalidVolume
  else if force = false ∧ volume.status = "in-use" then .error Err.invalidVolume
  else .ok ()

/-- copy_volume_to_image (lines 735-756): availability precondition on the
caller-supplied record, then image registration, status update to uploading
and a copy cast; the response dict is not modelled. -/
def copy_volume_to_image (_db : Db) (volume : Volume) (force : Bool) :
    Except Err Unit × List Event :=
  match check_volume_availability volume force with
  | .error e => (.error e, [])
  | .ok _ =>
    (.ok (), [Event.imageCreate, Event.volumeUpdateStatus volume.id "uploading",
              Event.castCopyVolumeToImage volume.id])

/-! ### _create_snapshot (lines 526-603) -/

/-- The collaborators' behaviour during a snapshot create: quota outcome,
the no_snapshot_gb_quota flag, the snapshot_create/commit try-block outcome
(persistOk), the id snapshot_create assigns, and the request context. -/
structure SnapshotEnv where
  project_id : Nat
  user_id : Nat
  reserveOk : Bool
  overGigabytes : Bool
  no_snapshot_gb_quota : Bool
  persistOk : Bool
  new_snapshot_id : Nat

/-- _create_snapshot (lines 526-591): availability precondition (unless
force) on the caller-supplied volume record, quota reservation, metadata
check, persistence of the snapshot record with commit, and a create cast;
on a persistence/commit failure the source destroys using the parent
volume's id (volume['id']) and rolls the reservation back. -/
def create_snapshot_internal (env : SnapshotEnv) (volume : Volume)
    (name : String) (description : String) (force : Bool)
    (metadata : List (String × String)) : Except Err Snapshot × List Event :=
  if force = false ∧ volume.status ≠ "available" then
    (.error Err.invalidVolume, [])
  else if !env.reserveOk then
    (.error (if env.overGigabytes then Err.volumeSizeExceedsAvailableQuota
             else Err.snapshotLimitExceeded), [])
  else
    let r := if env.no_snapshot_gb_quota then Event.quotaReserveSnapshots 1 none
             else Event.quotaReserveSnapshots 1 (some volume.size)
    match check_metadata_properties metadata with
    | .error e => (.error e, [r])
    | .ok _ =>
      let snapshot : Snapshot :=
        { id := env.new_snapshot_id,
          volume_id := volume.id,
          user_id := env.user_id,
          project_id := env.project_id,
          status := "creating",
          progress := "0%",
          volume_size := volume.size,
          display_name := name,
          display_description := description,
          metadata := metadata }
      if !env.persistOk then
        (.error Err.persistenceError,
         [r, Event.snapshotDestroy volume.id, Event.quotaRollback])
      else
        (.ok snapshot,
         [r, Event.snapshotCreate snapshot.id, Event.quotaCommit,
          Event.castCreateSnapshot volume.id snapshot.id])

/-- create_snapshot (lines 593-597): force=False. -/
def create_snapshot (env : SnapshotEnv) (volume : Volume) (name : String)
    (description : String) (metadata : List (String × String)) :
    Except Err Snapshot × List Event :=
  create_snapshot_internal env volume name description false metadata

/-- create_snapshot_force (lines 599-603): force=True. -/
def create_snapshot_force (env : SnapshotEnv) (volume : Volume) (name : String)
    (description : String) (metadata : List (String × String)) :
    Except Err Snapshot × List Event :=
  create_snapshot_internal env volume name description true metadata

/-! ### Trace helpers -/

/-- Whether a trace records a successful quota reservation (volume or
snapshot deltas). -/
def hasReserve (t : List Event) : Bool :=
  t.any fun e =>
    match e with
    | Event.quotaReserve _ _ => true
    | Event.quotaReserveSnapshots _ _ => true
    | _ => false

/-- Number of quota commits in a trace. -/
def commitCount (t : List Event) : Nat :=
  t.countP (fun e => e = Event.quotaCommit)

/-- Number of quota rollbacks in a trace. -/
def rollbackCount (t : List Event) : Nat :=
  t.countP (fun e => e = Event.quotaRollback)

theorem keyLookup_dictSet (m : List (String × Bool)) (k0 k : String) (v : Bool) :
    keyLookup (dictSet m k0 v) k = if k == k0 then some v else keyLookup m k := by
  induction m with
  | nil =>
    by_cases h : k0 = k
    · subst h; simp [dictSet, keyLookup]
    · simp [dictSet, keyLookup, h, Ne.symm h]
  | cons p rest ih =>
    by_cases h1 : p.1 = k0
    · by_cases h2 : k = k0
      · subst h2; simp [dictSet, keyLookup, h1]
      · have h2' : ¬ k0 = k := fun hh => h2 hh.symm
        simp [dictSet, keyLookup, h1, h2, h2']
    · by_cases h2 : p.1 = k
      · have h3 : ¬ k = k0 := fun hh => h1 (h2.trans hh)
        simp [dictSet, keyLookup, h1, h2, h3]
      · simp [dictSet, keyLookup, h1, h2, ih]

theorem keyLookup_foldStep (l m : List (String × Bool)) (k : String) :
    keyLookup (l.foldl (fun m p => dictSet m p.1 (lookupDefault m p.1 true && p.2)) m) k =
      if ((keyLookup m k).isSome || l.any (fun p => p.1 == k)) then
        some ((keyLookup m k).getD true && l.all (fun p => !(p.1 == k) || p.2))
      else none := by
  induction l generalizing m with
  | nil => cases h : keyLookup m k <;> simp [h]
  | cons a rest ih =>
    rw [List.foldl_cons, ih, keyLookup_dictSet]
    by_cases h : a.1 = k
    · have hb : (a.1 == k) = true := beq_iff_eq.mpr h
      have hb2 : (k == a.1) = true := beq_iff_eq.mpr h.symm
      subst h
      simp [hb, hb2, lookupDefault, Bool.and_assoc]
    · have hb : (a.1 == k) = false := beq_eq_false_iff_ne.mpr h
      have hb2 : (k == a.1) = false := beq_eq_false_iff_ne.mpr (fun hh => h hh.symm)
      simp [hb, hb2]

theorem keyLookup_map_not (M : List (String × Bool)) (k : String) :
    keyLookup (M.map (fun p => (p.1, !p.2))) k = (keyLookup M k).map (fun b => !b) := by
  induction M with
  | nil => simp [keyLookup]
  | cons p rest ih =>
    by_cases h : p.1 = k <;> simp [keyLookup, h, ih]

theorem list_not_all {α : Type} (l : List α) (f : α → Bool) :
    (!(l.all f)) = l.any (fun x => !(f x)) := by
  induction l with
  | nil => simp
  | cons a rest ih => simp [ih]

theorem listAnyMap {α β : Type} (f : α → β) (l : List α) (p : β → Bool) :
    (l.map f).any p = l.any (fun a => p (f a)) := by
  induction l with
  | nil => rfl
  | cons a rest ih => simp [ih]

theorem listAllMap {α β : Type} (f : α → β) (l : List α) (p : β → Bool) :
    (l.map f).all p = l.all (fun a => p (f a)) := by
  induction l with
  | nil => rfl
  | cons a rest ih => simp [ih]

/-- C1 (amended): a zone is reported by list_availability_zones exactly when
some worker reports it, and it is reported available if and only if at least
one worker reporting that zone is non-disabled (logical OR of enabledness
across the hosts sharing the zone name). -/
theorem c1_zone_availability (services : List Service) (zone : String) :
    reportedAvailable services zone =
      if services.any (fun s => s.availability_zone == zone) then
        some (services.any (fun s => s.availability_zone == zone && !s.disabled))
      else none := by
  unfold reportedAvailable list_availability_zones disabledMapOf
  rw [keyLookup_map_not, keyLookup_foldStep]
  simp only [keyLookup, Option.isSome_none, Bool.false_or, Option.getD_none, Bool.true_and]
  rw [listAnyMap, listAllMap]
  by_cases h : services.any (fun s => s.availability_zone == zone) = true
  · simp [h, list_not_all]
  · simp only [Bool.not_eq_true] at h
    simp [h]

/-- C1 counterexample: on hosts {h1: zoneA disabled=false, h2: zoneA
disabled=true, h3: zoneB disabled=false} the code reports zoneA as
available=true (one enabled host suffices), not available=false as the
claim's universal AND-aggregation rule demands. -/
theorem c1_counterexample :
    reportedAvailable
        [{ host := "h1", availability_zone := "zoneA", disabled := false },
         { host := "h2", availability_zone := "zoneA", disabled := true },
         { host := "h3", availability_zone := "zoneB", disabled := false }] "zoneA"
      = some true ∧
    list_availability_zones
        [{ host := "h1", availability_zone := "zoneA", disabled := false },
         { host := "h2", availability_zone := "zoneA", disabled := true },
         { host := "h3", availability_zone := "zoneB", disabled := false }]
      = [("zoneA", true), ("zoneB", true)] := by
  exact ⟨rfl, rfl⟩

/-! ## Concrete fixtures used by witnesses and counterexamples -/

/-- A baseline volume record for building concrete instances. -/
def baseVolume : Volume :=
  { id := 1, user_id := 10, project_id := 20, size := 5,
    status := "available", attach_status := "detached", host := none,
    snapshot_id := none, source_volid := none, volume_type_id := none,
    availability_zone := none, display_name := "", display_description := "",
    metadata := [] }

/-- A baseline snapshot record for building concrete instances. -/
def baseSnapshot : Snapshot :=
  { id := 2, volume_id := 1, user_id := 10, project_id := 20,
    status := "available", progress := "0%", volume_size := 5,
    display_name := "", display_description := "", metadata := [] }

/-! ## Persistence lemmas -/

theorem find_update_status (l : List Volume) (id : Nat) (st : String) :
    ((l.map fun v => if v.id == id then { v with status := st } else v).find?
        (fun v => v.id == id)) =
      (l.find? (fun v => v.id == id)).map (fun v => { v with status := st }) := by
  induction l with
  | nil => rfl
  | cons a rest ih =>
    rw [List.map_cons, List.find?_cons, List.find?_cons]
    cases hb : a.id == id with
    | true =>
      have h := beq_iff_eq.mp hb
      simp only [hb, if_true]
      simp [hb]
    | false =>
      simp only [hb, Bool.false_eq_true, if_false, hb]
      exact ih

theorem volume_get_update_status (db : Db) (id : Nat) (st : String) :
    (db.volume_update_status id st).volume_get id =
      (db.volume_get id).map (fun v => { v with status := st }) := by
  unfold Db.volume_get Db.volume_update_status
  exact find_update_status db.volumes id st

theorem volume_get_id (db : Db) (id : Nat) (v : Volume)
    (h : db.volume_get id = some v) : v.id = id := by
  unfold Db.volume_get at h
  have hp := List.find?_some h
  simpa using hp

/-! ## Metadata validator lemmas -/

theorem check_metadata_ok_of_bounds (m : List (String × String))
    (hm : ∀ p ∈ m, 1 ≤ p.1.length ∧ p.1.length ≤ 255 ∧ p.2.length ≤ 255) :
    check_metadata_properties m = .ok () := by
  induction m with
  | nil => rfl
  | cons p rest ih =>
    obtain ⟨k, v⟩ := p
    obtain ⟨h1, h2, h3⟩ := hm (k, v) (List.mem_cons_self _ _)
    dsimp only at h1 h2 h3
    have hk0 : ¬ k.length = 0 := by omega
    have hk255 : ¬ k.length > 255 := by omega
    have b0 : (k.length == 0) = false := by simp [hk0]
    simp only [check_metadata_properties, b0, Bool.false_eq_true, if_false]
    rw [if_neg hk255, if_neg (Nat.not_lt.mpr h3)]
    exact ih (fun q hq => hm q (List.mem_cons_of_mem _ hq))

theorem check_metadata_rejects (m : List (String × String)) (q : String × String)
    (hq : q ∈ m) (hbad : q.1.length = 0 ∨ q.1.length > 255 ∨ q.2.length > 255) :
    check_metadata_properties m ≠ .ok () := by
  induction m with
  | nil => cases hq
  | cons p rest ih =>
    obtain ⟨k, v⟩ := p
    simp only [check_metadata_properties]
    by_cases h1 : k.length = 0
    · simp [h1]
    · by_cases h2 : k.length > 255
      · simp [h1, h2]
      · by_cases h3 : v.length > 255
        · simp [h1, h2, h3]
        · have b0 : (k.length == 0) = false := by simp [h1]
          simp only [b0, Bool.false_eq_true, if_false]
          rw [if_neg h2, if_neg h3]
          rcases List.mem_cons.mp hq with hq2 | hq2
          · rw [hq2] at hbad
            dsimp only at hbad
            rcases hbad with hb | hb | hb
            · exact absurd hb h1
            · exact absurd hb h2
            · exact absurd hb h3
          · exact ih hq2

set_option maxRecDepth 8000 in
/-- C8: the metadata validator accepts the empty map and every map whose keys
and values all have length between 1 and 255; it rejects any map containing a
zero-length key, a key longer than 255 characters, or a value longer than 255
characters; in particular a 255-character key and value are accepted and a
256-character key or value is rejected. -/
theorem c8_metadata_validation :
    check_metadata_properties [] = .ok () ∧
    (∀ m : List (String × String),
      (∀ p ∈ m, 1 ≤ p.1.length ∧ p.1.length ≤ 255 ∧
        1 ≤ p.2.length ∧ p.2.length ≤ 255) →
      check_metadata_properties m = .ok ()) ∧
    (∀ m : List (String × String), ∀ q ∈ m,
      q.1.length = 0 ∨ q.1.length > 255 ∨ q.2.length > 255 →
      check_metadata_properties m ≠ .ok ()) ∧
    check_metadata_properties
      [(String.mk (List.replicate 255 'a'), String.mk (List.replicate 255 'b'))]
      = .ok () ∧
    check_metadata_properties
      [(String.mk (List.replicate 256 'a'), "v")]
      = .error Err.invalidVolumeMetadataSize ∧
    check_metadata_properties
      [("k", String.mk (List.replicate 256 'b'))]
      = .error Err.invalidVolumeMetadataSize ∧
    check_metadata_properties [("", "v")] = .error Err.invalidVolumeMetadata := by
  refine ⟨rfl, ?_, ?_, rfl, rfl, rfl, rfl⟩
  · intro m hm
    refine check_metadata_ok_of_bounds m (fun p hp => ?_)
    obtain ⟨a1, a2, _, a4⟩ := hm p hp
    exact ⟨a1, a2, a4⟩
  · intro m q hq hbad
    exact check_metadata_rejects m q hq hbad

/-- C8 witness: the theorem evaluated at concrete metadata maps. -/
theorem c8_metadata_validation_witness :
    check_metadata_properties [("key", "value")] = .ok () ∧
    check_metadata_properties [("", "value")] ≠ .ok () := by
  constructor
  · refine c8_metadata_validation.2.1 [("key", "value")] (fun p hp => ?_)
    rcases List.mem_singleton.mp hp with rfl
    exact ⟨by decide, by decide, by decide, by decide⟩
  · exact c8_metadata_validation.2.2.1 [("", "value")] ("", "value")
      (List.mem_singleton.mpr rfl) (Or.inl (by decide))

/-- C7: reserve_volume explicitly re-reads the persisted row; it succeeds
exactly when the re-read status is available, persisting status attaching
for that volume, and on any other persisted status it fails with
InvalidVolume and leaves the database (hence the status) unchanged. -/
theorem c7_reserve_volume (db : Db) (volume v : Volume)
    (hget : db.volume_get volume.id = some v) :
    (v.status = "available" →
      reserve_volume db volume =
        (.ok (), db.volume_update_status volume.id "attaching") ∧
      (db.volume_update_status volume.id "attaching").volume_get volume.id =
        some { v with status := "attaching" }) ∧
    (v.status ≠ "available" →
      reserve_volume db volume = (.error Err.invalidVolume, db)) := by
  have hid : v.id = volume.id := volume_get_id db volume.id v hget
  constructor
  · intro hs
    constructor
    · simp only [reserve_volume, hget]
      rw [if_pos hs, hid]
    · rw [volume_get_update_status, hget]
      rfl
  · intro hs
    simp only [reserve_volume, hget]
    rw [if_neg hs]

/-- C7 witness: an available volume is moved to attaching; an in-use volume
is rejected with the database unchanged. -/
theorem c7_reserve_volume_witness :
    reserve_volume { volumes := [baseVolume], snapshots := [] } baseVolume =
      (.ok (), Db.volume_update_status { volumes := [baseVolume], snapshots := [] }
        baseVolume.id "attaching") ∧
    reserve_volume { volumes := [{ baseVolume with status := "in-use" }], snapshots := [] }
        baseVolume =
      (.error Err.invalidVolume,
       { volumes := [{ baseVolume with status := "in-use" }], snapshots := [] }) := by
  constructor
  · exact ((c7_reserve_volume { volumes := [baseVolume], snapshots := [] }
      baseVolume baseVolume (by rfl)).1 rfl).1
  · exact (c7_reserve_volume
      { volumes := [{ baseVolume with status := "in-use" }], snapshots := [] }
      baseVolume { baseVolume with status := "in-use" } (by rfl)).2 (by decide)

/-- C9 counterexample: check_attach decides on the caller-supplied record.
With the persisted row in status in-use and attach_status attached, passing
a stale record claiming available/detached makes check_attach succeed, so
the precondition was not based on a re-read of the persisted record. -/
theorem c9_counterexample :
    check_attach
        { volumes := [{ baseVolume with status := "in-use", attach_status := "attached" }],
          snapshots := [] }
        baseVolume = .ok () ∧
    Db.volume_get
        { volumes := [{ baseVolume with status := "in-use", attach_status := "attached" }],
          snapshots := [] } baseVolume.id =
      some { baseVolume with status := "in-use", attach_status := "attached" } := by
  exact ⟨rfl, rfl⟩

/-- C9 (amended): only reserve_volume re-reads the persisted record before
its status check — its outcome ignores the caller-supplied status — while
delete, check_attach, check_detach, unreserve_volume, roll_detaching,
delete_snapshot and copy_volume_to_image decide their status preconditions
from the caller-supplied record alone, whatever the persisted state. -/
theorem c9_status_sources :
    (∀ (db : Db) (v : Volume) (s : String),
      reserve_volume db { v with status := s } = reserve_volume db v) ∧
    (∀ (db db' : Db) (v : Volume), check_attach db v = check_attach db' v) ∧
    (∀ (db db' : Db) (v : Volume), check_detach db v = check_detach db' v) ∧
    (∀ (env : DeleteEnv) (v : Volume) (force : Bool),
      pyTruthyStr v.host = true → force = false →
      v.status ∉ (["available", "error", "error_restoring"] : List String) →
      deleteVolume env v force = (.error Err.invalidVolume, [])) ∧
    (∀ (db : Db) (v : Volume), v.status ≠ "attaching" → unreserve_volume db v = db) ∧
    (∀ (db : Db) (v : Volume), v.status ≠ "detaching" → roll_detaching db v = db) ∧
    (∀ (db : Db) (s : Snapshot) (force : Bool), force = false →
      s.status ∉ (["available", "error"] : List String) →
      delete_snapshot db s force = (.error Err.invalidVolume, [])) ∧
    (∀ (db : Db) (v : Volume) (force : Bool),
      v.status ∉ (["available", "in-use"] : List String) →
      copy_volume_to_image db v force = (.error Err.invalidVolume, [])) := by
  refine ⟨?_, ?_, ?_, ?_, ?_, ?_, ?_, ?_⟩
  · intro db v s; rfl
  · intro db db' v; rfl
  · intro db db' v; rfl
  · intro env v force hh hf hc
    subst hf
    simp only [deleteVolume, hh, Bool.not_true, Bool.false_eq_true, if_false]
    rw [if_pos ⟨trivial, hc⟩]
  · intro db v hs
    rw [unreserve_volume, if_neg hs]
  · intro db v hs
    rw [roll_detaching, if_neg hs]
  · intro db s force hf hc
    subst hf
    rw [delete_snapshot, if_pos ⟨rfl, hc⟩]
  · intro db v force hc
    rw [copy_volume_to_image, check_volume_availability, if_pos hc]

/-- C9 witness: the amended theorem applied at concrete stale records. -/
theorem c9_status_sources_witness :
    reserve_volume { volumes := [baseVolume], snapshots := [] }
        { baseVolume with status := "zzz" } =
      reserve_volume { volumes := [baseVolume], snapshots := [] } baseVolume ∧
    deleteVolume { db := { volumes := [], snapshots := [] }, reserveOk := true }
        { baseVolume with host := some "h", status := "creating" } false =
      (.error Err.invalidVolume, []) ∧
    delete_snapshot { volumes := [], snapshots := [] }
        { baseSnapshot with status := "creating" } false =
      (.error Err.invalidVolume, []) ∧
    copy_volume_to_image { volumes := [], snapshots := [] }
        { baseVolume with status := "error" } false =
      (.error Err.invalidVolume, []) := by
  obtain ⟨h1, h2, h3, h4, h5, h6, h7, h8⟩ := c9_status_sources
  refine ⟨h1 _ baseVolume "zzz", ?_, ?_, ?_⟩
  · exact h4 _ _ false (by decide) rfl (by decide)
  · exact h7 _ _ false rfl (by decide)
  · exact h8 _ _ false (by decide)

/-- The empty database. -/
def emptyDb : Db := { volumes := [], snapshots := [] }

/-- A database holding only the baseline snapshot (which references volume 1). -/
def snapDb : Db := { volumes := [], snapshots := [baseSnapshot] }

/-- C3 counterexample: deleting a host-less volume commits its negative-delta
quota reservation (the trace ends in a commit, with no rollback), contrary
to the claim that the reservation is rolled back rather than committed. -/
theorem c3_counterexample :
    deleteVolume { db := emptyDb, reserveOk := true }
        baseVolume false =
      (.ok (), [Event.quotaReserve (-1) (-5), Event.volumeDestroy 1,
                Event.quotaCommit]) ∧
    Event.quotaCommit ∈
      (deleteVolume { db := emptyDb, reserveOk := true }
        baseVolume false).2 ∧
    Event.quotaRollback ∉
      (deleteVolume { db := emptyDb, reserveOk := true }
        baseVolume false).2 := by
  refine ⟨by rfl, by decide, by decide⟩

/-- C3 (amended): for a volume with no (truthy) host, delete destroys the
record locally and issues no worker RPC; the quota reservation taken for the
deletion (negative deltas releasing usage) is committed, never rolled back,
and if the reservation itself fails only the local destroy happens. -/
theorem c3_no_host_delete (env : DeleteEnv) (volume : Volume) (force : Bool)
    (hh : pyTruthyStr volume.host = false) :
    deleteVolume env volume force =
      (if env.reserveOk then
        (.ok (), [Event.quotaReserve (-1) (-volume.size),
                  Event.volumeDestroy volume.id, Event.quotaCommit])
      else (.ok (), [Event.volumeDestroy volume.id])) ∧
    (∀ e ∈ (deleteVolume env volume force).2, ∀ i, e ≠ Event.castDeleteVolume i) ∧
    Event.quotaRollback ∉ (deleteVolume env volume force).2 ∧
    (env.reserveOk = true → Event.quotaCommit ∈ (deleteVolume env volume force).2) := by
  have heq : deleteVolume env volume force =
      (if env.reserveOk then
        (.ok (), [Event.quotaReserve (-1) (-volume.size),
                  Event.volumeDestroy volume.id, Event.quotaCommit])
      else (.ok (), [Event.volumeDestroy volume.id])) := by
    simp only [deleteVolume, hh, Bool.not_false, if_true]
  refine ⟨heq, ?_, ?_, ?_⟩ <;> rw [heq] <;> cases hr : env.reserveOk <;> simp [hr]

/-- C3 witness: the amended theorem applied to a concrete host-less volume. -/
theorem c3_no_host_delete_witness :
    deleteVolume { db := emptyDb, reserveOk := true }
        baseVolume false =
      (.ok (), [Event.quotaReserve (-1) (-5), Event.volumeDestroy 1,
                Event.quotaCommit]) := by
  have h := (c3_no_host_delete
    { db := emptyDb, reserveOk := true }
    baseVolume false rfl).1
  simpa using h

/-- C4 counterexample: a volume with no host but a live dependent snapshot is
deleted successfully (the host-less path never checks snapshots), so the
claim does not hold for every volume with a non-deleted snapshot. -/
theorem c4_counterexample :
    deleteVolume { db := snapDb, reserveOk := true } baseVolume false =
      (.ok (), [Event.quotaReserve (-1) (-5), Event.volumeDestroy 1,
                Event.quotaCommit]) ∧
    Db.snapshot_get_all_for_volume snapDb baseVolume.id ≠ [] := by
  refine ⟨by rfl, by decide⟩

/-- C4 (amended): for every volume with a truthy host that has at least one
non-deleted snapshot referencing it, delete fails with InvalidVolume and
performs no effect (in particular no status update to deleting), for every
volume status and force flag. -/
theorem c4_snapshot_blocks_delete (env : DeleteEnv) (volume : Volume) (force : Bool)
    (hh : pyTruthyStr volume.host = true)
    (hs : env.db.snapshot_get_all_for_volume volume.id ≠ []) :
    deleteVolume env volume force = (.error Err.invalidVolume, []) := by
  have hlen : (env.db.snapshot_get_all_for_volume volume.id).length ≠ 0 := by
    intro h0
    exact hs (List.length_eq_zero.mp h0)
  simp only [deleteVolume, hh, Bool.not_true, Bool.false_eq_true, if_false]
  by_cases hc : force = false ∧
      volume.status ∉ (["available", "error", "error_restoring"] : List String)
  · rw [if_pos hc]
  · rw [if_neg hc, if_pos hlen]

/-- C4 witness: the amended theorem at a concrete volume with host set,
status outside the deletable set and force on — the snapshot still blocks. -/
theorem c4_snapshot_blocks_delete_witness :
    deleteVolume { db := snapDb, reserveOk := true }
      { baseVolume with host := some "hostA", status := "in-use" } true =
      (.error Err.invalidVolume, []) :=
  c4_snapshot_blocks_delete { db := snapDb, reserveOk := true }
    { baseVolume with host := some "hostA", status := "in-use" } true
    (by decide) (by decide)

/-- C10: when the snapshot persistence/commit step fails in _create_snapshot,
the cleanup calls snapshot_destroy with the parent volume's id (volume.id),
not the newly created snapshot's id, and the quota reservation is rolled
back before the error propagates. -/
theorem c10_snapshot_cleanup (env : SnapshotEnv) (volume : Volume)
    (name description : String) (metadata : List (String × String)) (force : Bool)
    (hpre : ¬ (force = false ∧ volume.status ≠ "available"))
    (hr : env.reserveOk = true)
    (hm : check_metadata_properties metadata = .ok ())
    (hp : env.persistOk = false) :
    create_snapshot_internal env volume name description force metadata =
      (.error Err.persistenceError,
       [(if env.no_snapshot_gb_quota then Event.quotaReserveSnapshots 1 none
         else Event.quotaReserveSnapshots 1 (some volume.size)),
        Event.snapshotDestroy volume.id, Event.quotaRollback]) ∧
    (env.new_snapshot_id ≠ volume.id →
      Event.snapshotDestroy env.new_snapshot_id ∉
        (create_snapshot_internal env volume name description force metadata).2) := by
  have heq : create_snapshot_internal env volume name description force metadata =
      (.error Err.persistenceError,
       [(if env.no_snapshot_gb_quota then Event.quotaReserveSnapshots 1 none
         else Event.quotaReserveSnapshots 1 (some volume.size)),
        Event.snapshotDestroy volume.id, Event.quotaRollback]) := by
    simp only [create_snapshot_internal, if_neg hpre, hr, Bool.not_true,
      Bool.false_eq_true, if_false, hm, hp, Bool.not_false, if_true]
  refine ⟨heq, ?_⟩
  intro hne
  rw [heq]
  cases hq : env.no_snapshot_gb_quota <;> simp [hq, hne]

/-- C10 witness: the theorem at a concrete failing persistence step. -/
theorem c10_snapshot_cleanup_witness :
    create_snapshot_internal
        { project_id := 20, user_id := 10, reserveOk := true, overGigabytes := false,
          no_snapshot_gb_quota := false, persistOk := false, new_snapshot_id := 7 }
        baseVolume "s" "" false [] =
      (.error Err.persistenceError,
       [Event.quotaReserveSnapshots 1 (some 5), Event.snapshotDestroy 1,
        Event.quotaRollback]) := by
  have h := (c10_snapshot_cleanup
    { project_id := 20, user_id := 10, reserveOk := true, overGigabytes := false,
      no_snapshot_gb_quota := false, persistOk := false, new_snapshot_id := 7 }
    baseVolume "s" "" [] false (by decide) rfl rfl rfl).1
  simpa using h

theorem find_update_host (l : List Volume) (id : Nat) (h : Option String) :
    ((l.map fun v => if v.id == id then { v with host := h } else v).find?
        (fun v => v.id == id)) =
      (l.find? (fun v => v.id == id)).map (fun v => { v with host := h }) := by
  induction l with
  | nil => rfl
  | cons a rest ih =>
    rw [List.map_cons, List.find?_cons, List.find?_cons]
    cases hb : a.id == id with
    | true =>
      simp only [hb, if_true]
      simp [hb]
    | false =>
      simp only [hb, Bool.false_eq_true, if_false]
      exact ih

theorem volume_get_update_host (db : Db) (id : Nat) (h : Option String) :
    (db.volume_update_host id h).volume_get id =
      (db.volume_get id).map (fun v => { v with host := h }) := by
  unfold Db.volume_get Db.volume_update_host
  exact find_update_host db.volumes id h

/-- A concrete database for exercising the placement router: the snapshot's
parent volume lives on hostA and the freshly created volume 9 is unplaced. -/
def routerDb : Db :=
  { volumes := [{ baseVolume with host := some "hostA" },
                { baseVolume with id := 9, status := "creating" }],
    snapshots := [baseSnapshot] }

/-- C5: the dispatch decision order of _cast_create_volume.  (1) With a truthy
snapshot_id and snapshot_same_host enabled, the new volume's host is stamped
with the snapshot's parent volume's host and the create is cast directly to
that host (never the scheduler topic).  (2) Otherwise, with a truthy
source_volid, the same stamping and direct cast happen from the source
volume.  (3) With neither, the cast goes to the generic scheduler topic
carrying the filter-properties bag it was given — create passes an initially
empty one. -/
theorem c5_dispatch_order (db : Db) (flag : Bool) (spec : RequestSpec)
    (fp : List (String × String)) :
    (∀ sid snap src v, spec.snapshot_id = some sid → sid ≠ 0 → flag = true →
      db.snapshot_get sid = some snap →
      db.volume_get snap.volume_id = some src →
      db.volume_get spec.volume_id = some v →
      cast_create_volume db flag spec fp =
        .ok (Dispatch.toHost src.host false,
             db.volume_update_host spec.volume_id src.host) ∧
      (db.volume_update_host spec.volume_id src.host).volume_get spec.volume_id =
        some { v with host := src.host }) ∧
    ((pyTruthyNat spec.snapshot_id && flag) = false →
      ∀ svid src v, spec.source_volid = some svid → svid ≠ 0 →
      db.volume_get svid = some src →
      db.volume_get spec.volume_id = some v →
      cast_create_volume db flag spec fp =
        .ok (Dispatch.toHost src.host false,
             db.volume_update_host spec.volume_id src.host) ∧
      (db.volume_update_host spec.volume_id src.host).volume_get spec.volume_id =
        some { v with host := src.host }) ∧
    ((pyTruthyNat spec.snapshot_id && flag) = false →
      pyTruthyNat spec.source_volid = false →
      cast_create_volume db flag spec fp = .ok (Dispatch.toScheduler fp, db)) := by
  refine ⟨?_, ?_, ?_⟩
  · intro sid snap src v hsid hne hflag hsnap hsrc hv
    have hhost : (db.volume_update_host spec.volume_id src.host).volume_get
        spec.volume_id = some { v with host := src.host } := by
      rw [volume_get_update_host, hv]
      rfl
    have htr : (pyTruthyNat (some sid) && flag) = true := by
      simp [pyTruthyNat, hne, hflag]
    refine ⟨?_, hhost⟩
    simp only [cast_create_volume, htr, if_true, hsid, hsnap, hsrc, hhost]
  · intro hntr svid src v hsvid hne hsrc hv
    have hhost : (db.volume_update_host spec.volume_id src.host).volume_get
        spec.volume_id = some { v with host := src.host } := by
      rw [volume_get_update_host, hv]
      rfl
    have htr : pyTruthyNat (some svid) = true := by
      simp [pyTruthyNat, hne]
    refine ⟨?_, hhost⟩
    simp only [cast_create_volume, hntr, Bool.false_eq_true, if_false, htr,
      if_true, hsvid, hsrc, hhost]
  · intro hntr hnsv
    simp only [cast_create_volume, hntr, hnsv, Bool.false_eq_true, if_false]

/-- C5 witness: the three router branches at concrete inputs. -/
theorem c5_dispatch_order_witness :
    cast_create_volume routerDb true
        { volume_id := 9, snapshot_id := some 2, source_volid := none,
          image_id := none } [] =
      .ok (Dispatch.toHost (some "hostA") false,
           routerDb.volume_update_host 9 (some "hostA")) ∧
    cast_create_volume routerDb false
        { volume_id := 9, snapshot_id := some 2, source_volid := some 1,
          image_id := none } [] =
      .ok (Dispatch.toHost (some "hostA") false,
           routerDb.volume_update_host 9 (some "hostA")) ∧
    cast_create_volume routerDb true
        { volume_id := 9, snapshot_id := none, source_volid := none,
          image_id := none } [] =
      .ok (Dispatch.toScheduler [], routerDb) := by
  obtain ⟨h1, h2, h3⟩ := c5_dispatch_order routerDb true
    { volume_id := 9, snapshot_id := some 2, source_volid := none,
      image_id := none } []
  obtain ⟨g1, g2, g3⟩ := c5_dispatch_order routerDb false
    { volume_id := 9, snapshot_id := some 2, source_volid := some 1,
      image_id := none } []
  obtain ⟨f1, f2, f3⟩ := c5_dispatch_order routerDb true
    { volume_id := 9, snapshot_id := none, source_volid := none,
      image_id := none } []
  refine ⟨?_, ?_, ?_⟩
  · exact (h1 2 baseSnapshot { baseVolume with host := some "hostA" }
      { baseVolume with id := 9, status := "creating" }
      rfl (by decide) rfl (by rfl) (by rfl) (by rfl)).1
  · exact (g2 (by rfl) 1 { baseVolume with host := some "hostA" }
      { baseVolume with id := 9, status := "creating" }
      rfl (by decide) (by rfl) (by rfl)).1
  · exact f3 (by rfl) (by rfl)

/-- Projection of a create result onto the created volume's size. -/
def createdSize : Except Err Volume × List Event → Option Int
  | (.ok v, _) => some v.size
  | _ => none

/-- The clone-scenario source volume: id 3, size 5, on hostB. -/
def c6Src : Volume :=
  { baseVolume with id := 3, host := some "hostB", volume_type_id := some 4 }

/-- The freshly created (unplaced) volume row the router re-reads. -/
def c6New : Volume := { baseVolume with id := 9, status := "creating" }

/-- The snapshot of volume 3 used by the snapshot-restore scenario. -/
def c6Snap : Snapshot := { baseSnapshot with volume_id := 3 }

/-- Database for the clone / snapshot-restore scenarios: the source volume 3
(size 5) lives on hostB, its snapshot is row 2, and the freshly created
volume 9 is unplaced. -/
def c6Db : Db := { volumes := [c6Src, c6New], snapshots := [c6Snap] }

/-- Collaborator behaviour for the end-to-end create scenarios. -/
def c6Env : CreateEnv :=
  { project_id := 20, user_id := 10, reserveOk := true, overGigabytes := false,
    persistOk := true, default_volume_type := some 0, new_volume_id := 9,
    image_size := fun _ => 0, snapshot_same_host := true, db := c6Db }

/-- C6: for a clone, an explicit size strictly below the source's size fails
with InvalidInput end to end (before any quota or persistence effect); a
size equal to or above the source's size passes the clone size check; with
no size given, a clone defaults to the source volume's size and a
snapshot-restore defaults to the snapshot's recorded volume_size — shown
end to end on concrete runs whose created volume has size 5. -/
theorem c6_clone_size :
    (∀ (env : CreateEnv) (args : CreateArgs) (sv : Volume) (n : Int),
      args.snapshot = none → args.source_volume = some sv →
      sv.status ≠ "error" → args.size = some n → n ≠ 0 → n < sv.size →
      createVolume env args = (.error Err.invalidInput, [])) ∧
    (∀ (sv : Volume) (n : Int), sv.status ≠ "error" → n ≠ 0 → sv.size ≤ n →
      sourceVolumeStep (some sv) (some n) = .ok (some n, some sv.id)) ∧
    (∀ sv : Volume, sv.status ≠ "error" →
      sourceVolumeStep (some sv) none = .ok (some sv.size, some sv.id)) ∧
    (∀ snap : Snapshot, snap.status = "available" →
      snapshotStep (some snap) none = .ok (some snap.volume_size, some snap.id)) ∧
    createdSize (createVolume c6Env
      { size := none, name := "", description := "", snapshot := none,
        image_id := none, volume_type := none, metadata := [],
        availability_zone := none,
        source_volume := some c6Src }) = some 5 ∧
    createdSize (createVolume c6Env
      { size := none, name := "", description := "", snapshot := some c6Snap,
        image_id := none, volume_type := some 4, metadata := [],
        availability_zone := none, source_volume := none }) = some 5 := by
  refine ⟨?_, ?_, ?_, ?_, by rfl, by rfl⟩
  · intro env args sv n hsnap hsrcv hstat hsize hne hlt
    have hss : sourceVolumeStep (some sv) (some n) = .error Err.invalidInput := by
      simp [sourceVolumeStep, hstat, pyTruthyInt, hne, hlt]
    simp only [createVolume, hsnap, hsrcv, hsize, Option.isSome_none,
      Option.isSome_some, Bool.false_and, Bool.false_eq_true, if_false,
      snapshotStep, hss]
  · intro sv n hstat hne hge
    have hnlt : ¬ n < sv.size := not_lt.mpr hge
    simp [sourceVolumeStep, hstat, pyTruthyInt, hne, hnlt]
  · intro sv hstat
    simp [sourceVolumeStep, hstat, pyTruthyInt]
  · intro snap hstat
    simp [snapshotStep, hstat, pyTruthyInt]

/-- C6 witness: the universal conjuncts applied at concrete inputs: a
requested clone size 3 below the source size 5 is rejected end to end;
size 5 and size 7 pass the clone size check. -/
theorem c6_clone_size_witness :
    createVolume c6Env
      { size := some 3, name := "", description := "", snapshot := none,
        image_id := none, volume_type := none, metadata := [],
        availability_zone := none,
        source_volume := some c6Src } = (.error Err.invalidInput, []) ∧
    sourceVolumeStep (some c6Src) (some 5) = .ok (some 5, some 3) ∧
    sourceVolumeStep (some c6Src) (some 7) = .ok (some 7, some 3) := by
  obtain ⟨h1, h2, h3, h4, h5, h6⟩ := c6_clone_size
  refine ⟨?_, ?_, ?_⟩
  · exact h1 c6Env _ c6Src 3 rfl rfl (by decide) rfl (by decide) (by decide)
  · exact h2 c6Src 5 (by decide) (by decide) (by decide)
  · exact h2 c6Src 7 (by decide) (by decide) (by decide)

/-- The collaborator behaviour for the leaked-reservation counterexample:
quota reservation and persistence would both succeed. -/
def c2Env : CreateEnv :=
  { project_id := 20, user_id := 10, reserveOk := true, overGigabytes := false,
    persistOk := true, default_volume_type := some 0, new_volume_id := 9,
    image_size := fun _ => 0, snapshot_same_host := true, db := emptyDb }

/-- A create request whose metadata carries a blank key. -/
def c2Args : CreateArgs :=
  { size := some 1, name := "", description := "", snapshot := none,
    image_id := none, volume_type := some 3, metadata := [("", "v")],
    availability_zone := none, source_volume := none }

/-- C2 counterexample: with a blank metadata key, create reserves quota and
then raises InvalidVolumeMetadata with neither a commit nor a rollback in
the trace — the reservation is leaked, violating the exactly-one rule. -/
theorem c2_counterexample :
    createVolume c2Env c2Args =
      (.error Err.invalidVolumeMetadata, [Event.quotaReserve 1 1]) ∧
    hasReserve (createVolume c2Env c2Args).2 = true ∧
    commitCount (createVolume c2Env c2Args).2 = 0 ∧
    rollbackCount (createVolume c2Env c2Args).2 = 0 := by
  refine ⟨by rfl, by rfl, by rfl, by rfl⟩

/-- C2 (amended): provided the volume-type resolution and the metadata
validation succeed, every reservation created by create or _create_snapshot
is terminated by exactly one of commit (successful persistence) or rollback
(persistence/commit failure), and runs that create no reservation issue
neither; a metadata-validation rejection (or volume-type resolution failure)
after the reservation, however, propagates with the reservation neither
committed nor rolled back. -/
theorem c2_reservation_terminated :
    (∀ (env : CreateEnv) (args : CreateArgs),
      (∀ e, volumeTypeStep env.default_volume_type args.volume_type
        args.source_volume ≠ .error e) →
      check_metadata_properties args.metadata = .ok () →
      (hasReserve (createVolume env args).2 = true →
        commitCount (createVolume env args).2 +
          rollbackCount (createVolume env args).2 = 1) ∧
      (hasReserve (createVolume env args).2 = false →
        commitCount (createVolume env args).2 +
          rollbackCount (createVolume env args).2 = 0)) ∧
    (∀ (env : SnapshotEnv) (volume : Volume) (name description : String)
        (force : Bool) (metadata : List (String × String)),
      check_metadata_properties metadata = .ok () →
      (hasReserve (create_snapshot_internal env volume name description
          force metadata).2 = true →
        commitCount (create_snapshot_internal env volume name description
            force metadata).2 +
          rollbackCount (create_snapshot_internal env volume name description
            force metadata).2 = 1) ∧
      (hasReserve (create_snapshot_internal env volume name description
          force metadata).2 = false →
        commitCount (create_snapshot_internal env volume name description
            force metadata).2 +
          rollbackCount (create_snapshot_internal env volume name description
            force metadata).2 = 0)) := by
  constructor
  · intro env args hvt hmd
    simp only [createVolume]
    split
    · simp [hasReserve, commitCount, rollbackCount]
    · split
      · simp [hasReserve, commitCount, rollbackCount]
      · split
        · simp [hasReserve, commitCount, rollbackCount]
        · split
          · simp [hasReserve, commitCount, rollbackCount]
          · split
            · simp [hasReserve, commitCount, rollbackCount]
            · split
              · simp [hasReserve, commitCount, rollbackCount]
              · split
                · rename_i e heq
                  exact absurd heq (hvt e)
                · split
                  · rename_i heq
                    rw [hmd] at heq
                    cases heq
                  · split
                    · simp [hasReserve, commitCount, rollbackCount]
                    · split <;>
                        simp [hasReserve, commitCount, rollbackCount,
                          List.countP_append]
  · intro env volume name description force metadata hmd
    simp only [create_snapshot_internal]
    split
    · simp [hasReserve, commitCount, rollbackCount]
    · split
      · simp [hasReserve, commitCount, rollbackCount]
      · split
        · rename_i heq
          rw [hmd] at heq
          cases heq
        · split <;>
            first
              | (cases hq : env.no_snapshot_gb_quota <;>
                  simp [hq, hasReserve, commitCount, rollbackCount])

/-- C2 witness: the amended theorem applied to a fully successful concrete
create: the trace holds a reservation and exactly one commit/rollback. -/
theorem c2_reservation_terminated_witness :
    hasReserve (createVolume c6Env
      { size := some 1, name := "", description := "", snapshot := none,
        image_id := none, volume_type := some 3, metadata := [],
        availability_zone := none, source_volume := none }).2 = true ∧
    commitCount (createVolume c6Env
      { size := some 1, name := "", description := "", snapshot := none,
        image_id := none, volume_type := some 3, metadata := [],
        availability_zone := none, source_volume := none }).2 +
      rollbackCount (createVolume c6Env
        { size := some 1, name := "", description := "", snapshot := none,
          image_id := none, volume_type := some 3, metadata := [],
          availability_zone := none, source_volume := none }).2 = 1 := by
  refine ⟨by rfl, ?_⟩
  exact (c2_reservation_terminated.1 c6Env
    { size := some 1, name := "", description := "", snapshot := none,
      image_id := none, volume_type := some 3, metadata := [],
      availability_zone := none, source_volume := none }
    (by intro e h; cases h) rfl).1 (by rfl)

end Cinder
